import Mathlib

/-!
Verification development for the MiniClaw gateway server (`src/server.ts`,
`src/conversation-logger.ts`).

The server's mutable fields (JavaScript `Map`s, counters, the run table) are
embedded as explicit state threaded through functions.  A JavaScript `Map` is
modelled as an insertion-ordered association list: `Map.set` updates a present
key in place (keeping its position) and appends an absent key at the end,
`Map.delete` removes the entry, and iteration order is list order — exactly
the JS semantics the code relies on (`keys().next().value` is the head).

Wall-clock reads (`Date.now()`) are modelled by threading a `now : Nat`
argument.  The demo response table (`demo-responses.ts`), which the spec
declares an out-of-core collaborator, enters `finishRun` as an explicit
function parameter carrying, per message, the tool-call list that
`finishRun`'s demo branch turns into history content parts.
-/

namespace MiniClaw

/-! ### JavaScript `Map` as an insertion-ordered association list -/

/-- `Map.get k` — first (and, for well-formed maps, only) entry with key `k`. -/
def jsGet (m : List (String × α)) (k : String) : Option α :=
  (m.find? (fun p => p.1 = k)).map (·.2)

/-- `Map.set k v` — update in place when present, append when absent. -/
def jsSet (m : List (String × α)) (k : String) (v : α) : List (String × α) :=
  if m.any (fun p => p.1 = k) then
    m.map (fun p => if p.1 = k then (k, v) else p)
  else
    m ++ [(k, v)]

/-- `Map.delete k`. -/
def jsDelete (m : List (String × α)) (k : String) : List (String × α) :=
  m.filter (fun p => ¬ p.1 = k)

/-! ### JavaScript string operations

Embedded structurally over the character list so that concrete inputs
evaluate inside the kernel.  The whitespace class covers the ASCII
whitespace the recognized inputs can contain; `toLowerCase` is mapped
per-character on the ASCII range, which covers every slash command. -/

def jsIsWhitespace (c : Char) : Bool :=
  c = ' ' || c = '\t' || c = '\n' || c = '\r'

/-- JS `String.prototype.trim`. -/
def jsTrim (s : String) : String :=
  ⟨((s.data.dropWhile jsIsWhitespace).reverse.dropWhile jsIsWhitespace).reverse⟩

/-- JS `String.prototype.toLowerCase` (ASCII). -/
def jsToLower (s : String) : String :=
  ⟨s.data.map (fun c => if 'A' ≤ c && c ≤ 'Z' then Char.ofNat (c.toNat + 32) else c)⟩

/-- JS `String.prototype.startsWith`. -/
def jsStartsWith (s pre : String) : Bool :=
  pre.data.isPrefixOf s.data

/-- JS `s.slice(n)` for a non-negative `n` (in characters). -/
def jsDrop (s : String) (n : Nat) : String :=
  ⟨s.data.drop n⟩

/-- JS `s.split(" ")[0]`: the characters before the first space. -/
def jsFirstToken (s : String) : String :=
  ⟨s.data.takeWhile (fun c => ¬ c = ' ')⟩

/-! ### Data model (`server.ts` interfaces) -/

/-- `ContentPart` (`types.ts`): `text`, `thinking`, or `tool_call` variants.
`tool_call` carries `name`, `toolCallId`, JSON-encoded `arguments`,
`status ∈ {success, error}`, `result`, `resultError`. -/
inductive ContentPart where
  | text (text : String)
  | thinking (thinking : String)
  | toolCall (name toolCallId arguments status result : String) (resultError : Bool)
deriving Repr, DecidableEq

/-- `HistoryEntry` (`server.ts`). -/
structure HistoryEntry where
  role : String
  content : List ContentPart
  timestamp : Nat
  stopReason : Option String := none
  model : Option String := none
  provider : Option String := none
deriving Repr, DecidableEq

/-- `Run` (`server.ts`).  The `AbortController` is modelled by the `aborted`
flag; the `waitResolvers` closures each capture the request id they answer,
so they are modelled as that list of request ids. -/
structure Run where
  runId : String
  sessionKey : String
  message : String
  seq : Nat
  state : String
  accumulatedText : String := ""
  accumulatedThinking : String := ""
  aborted : Bool := false
  waitResolvers : List String := []
deriving Repr, DecidableEq

/-- The payload `finishRun` hands to every registered waiter. -/
structure WaitResult where
  runId : String
  state : String
  text : String
deriving Repr, DecidableEq

/-- Session metadata (`sessionMeta` map values in `server.ts`). -/
structure SessionMeta where
  label : Option String := none
  createdAt : Nat
  lastActiveAt : Nat
deriving Repr, DecidableEq

/-- `AgentData` — the `data` record of an `agent` event.  The code passes
ad-hoc object literals; the union of the fields the modelled paths use is
collected here, absent fields being `none`. -/
structure AgentData where
  phase : Option String := none
  error : Option String := none
  text : Option String := none
  delta : Option String := none
  startedAt : Option Nat := none
  endedAt : Option Nat := none
deriving Repr, DecidableEq

/-- Response payloads of the modelled methods. -/
inductive ResPayload where
  /-- `chat.send` / `agent` ACK: `{runId, sessionKey?}`. -/
  | ack (runId : String) (sessionKey : Option String)
  /-- `agent.wait` resolution payload `{runId, state, text}`. -/
  | waitResult (r : WaitResult)
  /-- `chat.history` reply `{sessionKey, messages}`. -/
  | history (sessionKey : String) (messages : List HistoryEntry)
  /-- error `{code, message}` (sent with `ok: false`). -/
  | err (code : String) (message : String)
deriving Repr, DecidableEq

/-- Outbound frames of the modelled paths. -/
inductive Frame where
  | res (id : String) (ok : Bool) (payload : ResPayload)
  | agentEvent (runId sessionKey : String) (seq : Nat) (stream : String)
      (ts : Nat) (data : AgentData)
  | chatEvent (runId sessionKey : String) (seq : Nat) (state : String)
      (errorMessage : Option String) (message : Option HistoryEntry)
deriving Repr, DecidableEq

/-- `sendError` (`server.ts`): a `res` frame with `ok: false`. -/
def sendErrorF (id code message : String) : Frame :=
  Frame.res id false (ResPayload.err code message)

/-- Is `f` a response frame whose `id` equals `i`?  (Both error and success
responses count — the protocol invariant counts them uniformly.) -/
def isResponseFor (i : String) : Frame → Bool
  | Frame.res id _ _ => id = i
  | _ => false

/-- `ResolvedConfig` (`server.ts`), restricted to the fields the modelled
paths consult; defaults are the `§7` constants. -/
structure ResolvedConfig where
  authToken : String := ""
  authPassword : String := ""
  dedupeMaxKeys : Nat := 1000
  dedupeTtlMs : Nat := 300000
  greeting : Option String := none
deriving Repr, DecidableEq

/-- The mutable fields of `MiniClawServer` touched by the modelled paths. -/
structure ServerState where
  chatHistory : List (String × List HistoryEntry) := []
  sessionMeta : List (String × SessionMeta) := []
  idempotencyKeys : List (String × Nat) := []
  runs : List (String × Run) := []
  runCounter : Nat := 0
  currentModel : String := "demo"
  currentProvider : String := "miniclaw"
deriving Repr, DecidableEq

/-- The server's state right after construction. -/
def initialState : ServerState := {}

/-! ### Idempotency deduplication (`server.ts` `§2.8`) -/

/-- `isDuplicateKey` (`server.ts` lines 1794–1803): absent → not a
duplicate; present with `now − ts > TTL` → purge, not a duplicate;
otherwise a duplicate.  Returns the flag and the (possibly purged) map. -/
def isDuplicateKey (cfg : ResolvedConfig) (m : List (String × Nat))
    (key : String) (now : Nat) : Bool × List (String × Nat) :=
  match jsGet m key with
  | none => (false, m)
  | some ts =>
    if cfg.dedupeTtlMs < now - ts then (false, jsDelete m key)
    else (true, m)

/-- `recordIdempotencyKey` (`server.ts` lines 1805–1812): when at capacity,
delete the first-inserted key — guarded by JS truthiness, so an empty-string
oldest key is (vacuously for real traffic) skipped — then `set`. -/
def recordIdempotencyKey (cfg : ResolvedConfig) (m : List (String × Nat))
    (key : String) (now : Nat) : List (String × Nat) :=
  let m1 :=
    if cfg.dedupeMaxKeys ≤ m.length then
      match m.head? with
      | some p => if p.1 = "" then m else jsDelete m p.1
      | none => m
    else m
  jsSet m1 key now

/-- One client-visible operation on the idempotency cache: the probe made by
a method's duplicate check, or the record made after it passes. -/
inductive DedupeOp where
  | record (k : String) (now : Nat)
  | probe (k : String) (now : Nat)
deriving Repr, DecidableEq

def DedupeOp.key : DedupeOp → String
  | .record k _ => k
  | .probe k _ => k

def applyDedupeOp (cfg : ResolvedConfig) (m : List (String × Nat)) :
    DedupeOp → List (String × Nat)
  | .record k now => recordIdempotencyKey cfg m k now
  | .probe k now => (isDuplicateKey cfg m k now).2

/-- The cache contents after a sequence of operations, starting empty. -/
def applyDedupeOps (cfg : ResolvedConfig) (ops : List DedupeOp) :
    List (String × Nat) :=
  ops.foldl (applyDedupeOp cfg) []

/-! ### Session metadata and history (`server.ts`) -/

/-- `ensureSessionMeta`: return the existing record or create a fresh one. -/
def ensureSessionMeta (st : ServerState) (key : String) (now : Nat) :
    ServerState × SessionMeta :=
  match jsGet st.sessionMeta key with
  | some m => (st, m)
  | none =>
    let m : SessionMeta := { createdAt := now, lastActiveAt := now }
    ({ st with sessionMeta := jsSet st.sessionMeta key m }, m)

/-- The `if (meta) meta.lastActiveAt = now` pattern used by `finishRun`. -/
def touchSessionMeta (st : ServerState) (key : String) (now : Nat) :
    ServerState :=
  match jsGet st.sessionMeta key with
  | some m =>
    { st with sessionMeta := jsSet st.sessionMeta key { m with lastActiveAt := now } }
  | none => st

/-- `appendHistory` (`server.ts` lines 1901–1915): push the entry onto the
session's (possibly fresh) array, then ensure metadata and stamp
`lastActiveAt`.  The forward to the optional disk logger is modelled
separately (`loggerAppend`). -/
def appendHistory (st : ServerState) (key : String) (entry : HistoryEntry)
    (now : Nat) : ServerState :=
  let history := (jsGet st.chatHistory key).getD []
  let st1 := { st with chatHistory := jsSet st.chatHistory key (history ++ [entry]) }
  let em := ensureSessionMeta st1 key now
  { em.1 with sessionMeta := jsSet em.1.sessionMeta key { em.2 with lastActiveAt := now } }

/-! ### Run creation and event emission -/

/-- Digit of `Number.prototype.toString(36)`: `0-9` then `a-z`. -/
def base36Digit (d : Nat) : Char :=
  if d < 10 then Char.ofNat (48 + d) else Char.ofNat (87 + d)

/-- Fuel-driven base-36 digit expansion (fuel `n + 1` always suffices). -/
def base36Digits : Nat → Nat → List Char
  | 0, _ => []
  | fuel + 1, n =>
    if n < 36 then [base36Digit n]
    else base36Digits fuel (n / 36) ++ [base36Digit (n % 36)]

/-- `n.toString(36)` for natural `n`. -/
def base36 (n : Nat) : String := ⟨base36Digits (n + 1) n⟩

/-- `createRun` (`server.ts` lines 1432–1447). -/
def createRun (st : ServerState) (sessionKey message : String) :
    Run × ServerState :=
  let counter := st.runCounter + 1
  let run : Run :=
    { runId := "run_" ++ base36 counter
      sessionKey := sessionKey
      message := message
      seq := 0
      state := "running" }
  (run, { st with runCounter := counter, runs := jsSet st.runs run.runId run })

/-- `emitAgentEvent` (`server.ts` lines 1618–1637): bump the per-run `seq`
and broadcast an `agent` event carrying it. -/
def emitAgentEvent (run : Run) (stream : String) (data : AgentData)
    (now : Nat) : Run × Frame :=
  let run1 := { run with seq := run.seq + 1 }
  (run1, Frame.agentEvent run1.runId run1.sessionKey run1.seq stream now data)

/-- `emitChatEvent` (`server.ts` lines 1640–1673): `error` carries
`errorMessage`; `delta`/`final` carry an assistant message whose content is
the accumulated thinking (when non-empty) followed by the text. -/
def emitChatEvent (run : Run) (state : String) (textOrError : String)
    (now : Nat) : Frame :=
  if state = "error" then
    Frame.chatEvent run.runId run.sessionKey run.seq state (some textOrError) none
  else
    Frame.chatEvent run.runId run.sessionKey run.seq state none
      (some { role := "assistant"
              content :=
                (if run.accumulatedThinking ≠ "" then
                  [ContentPart.thinking run.accumulatedThinking]
                else []) ++ [ContentPart.text textOrError]
              timestamp := now })

/-! ### `finishRun` (`server.ts` lines 1676–1747) -/

/-- One entry of a demo response's `toolCalls` as `finishRun` consumes it
(`arguments` already JSON-encoded, as `JSON.stringify(tc.args)` produces). -/
structure DemoToolCall where
  name : String
  toolCallId : String
  argumentsJson : String
  result : String
  isError : Bool
deriving Repr, DecidableEq

structure FinishOut where
  state : ServerState
  run : Run
  frames : List Frame
  payload : WaitResult
deriving Repr, DecidableEq

/-- `finishRun`.  `demo` is the `matchResponse` collaborator
(`demo-responses.ts`, out-of-core per the spec), giving the tool calls of
the canned response matched for a message; it is consulted only on the
`completed` path when no external content parts are supplied.  Waiter
closures are resolved by emitting one `res` frame per registered request
id, all carrying the same `{runId, state, text}` payload. -/
def finishRun (demo : String → List DemoToolCall) (st : ServerState)
    (run : Run) (state : String) (errorMessage : Option String)
    (externalContentParts : Option (List ContentPart)) (now : Nat) :
    FinishOut :=
  let run1 := { run with state := state }
  if state = "completed" then
    let el := emitAgentEvent run1 "lifecycle" { phase := some "end", endedAt := some now } now
    let run2 := el.1
    let fLife := el.2
    let fChat := emitChatEvent run2 "final" run2.accumulatedText now
    let contentParts :=
      match externalContentParts with
      | some parts => parts
      | none =>
        (demo run2.message).map (fun tc =>
          ContentPart.toolCall tc.name tc.toolCallId tc.argumentsJson
            (if tc.isError then "error" else "success") tc.result tc.isError)
        ++ [ContentPart.text run2.accumulatedText]
    let st1 := appendHistory st run2.sessionKey
      { role := "assistant", content := contentParts, timestamp := now
        stopReason := some "end_turn" } now
    let st2 := touchSessionMeta st1 run2.sessionKey now
    let payload : WaitResult :=
      { runId := run2.runId, state := run2.state, text := run2.accumulatedText }
    let waiterFrames := run2.waitResolvers.map
      (fun wid => Frame.res wid true (ResPayload.waitResult payload))
    let run3 := { run2 with waitResolvers := [] }
    { state := { st2 with runs := jsSet st2.runs run3.runId run3 }
      run := run3
      frames := [fLife, fChat] ++ waiterFrames
      payload := payload }
  else
    let el := emitAgentEvent run1 "lifecycle"
      { phase := some "error", error := some (errorMessage.getD "Unknown error")
        endedAt := some now } now
    let run2 := el.1
    let fLife := el.2
    let fChat := emitChatEvent run2 "error" (errorMessage.getD "Unknown error") now
    let st2 := touchSessionMeta st run2.sessionKey now
    let payload : WaitResult :=
      { runId := run2.runId, state := run2.state, text := run2.accumulatedText }
    let waiterFrames := run2.waitResolvers.map
      (fun wid => Frame.res wid true (ResPayload.waitResult payload))
    let run3 := { run2 with waitResolvers := [] }
    { state := { st2 with runs := jsSet st2.runs run3.runId run3 }
      run := run3
      frames := [fLife, fChat] ++ waiterFrames
      payload := payload }

/-! ### Slash commands (`server.ts` lines 1371–1428) -/

structure SlashResult where
  text : String
  stopReason : Option String := none
  model : Option String := none
  provider : Option String := none
deriving Repr, DecidableEq

/-- `handleSlashCommand`.  Declared nullable in the source but every branch
(the unknown-command fallthrough included) returns a result, so the
embedding is total. -/
def handleSlashCommand (st : ServerState) (run : Run) (lower : String) :
    ServerState × SlashResult :=
  if lower = "/new" then
    ({ st with chatHistory := jsDelete st.chatHistory run.sessionKey },
     { text := "Session cleared. How can I help you?" })
  else if lower = "/models" then
    (st, { text := "Available models:\n- " ++ st.currentModel ++ " (" ++ st.currentProvider ++ ")"
           model := some st.currentModel, provider := some st.currentProvider })
  else if lower = "/model" then
    (st, { text := "Current model: " ++ st.currentModel
           model := some st.currentModel, provider := some st.currentProvider })
  else if jsStartsWith lower "/model " then
    let requested := jsTrim (jsDrop (jsTrim run.message) 7)
    if requested ≠ "" then
      ({ st with currentModel := requested },
       { text := "Model set to " ++ requested
         model := some requested, provider := some st.currentProvider })
    else
      (st, { text := "Current model: " ++ st.currentModel
             model := some st.currentModel, provider := some st.currentProvider })
  else if lower = "/help" then
    (st, { text := "Available commands:\n  /new     — Start a new session\n  /model   — Show current model\n  /model <name> — Switch model\n  /models  — List available models\n  /help    — Show this help" })
  else
    (st, { text := "Unknown command: " ++ jsFirstToken lower ++ ". Type /help for available commands." })

structure ExecOut where
  state : ServerState
  run : Run
  frames : List Frame
deriving Repr, DecidableEq

/-- The slash-command interception at the head of `executeRun` (`server.ts`
lines 1449–1471).  Returns `none` when the trimmed, lowercased message does
not start with `/` — the code then falls through to the external adapter or
the demo streaming path, both asynchronous and out of scope here. -/
def executeRunSlash (demo : String → List DemoToolCall) (st : ServerState)
    (run : Run) (now : Nat) : Option ExecOut :=
  let trimmed := jsTrim run.message
  let lower := jsToLower trimmed
  if jsStartsWith lower "/" then
    let sc := handleSlashCommand st run lower
    let st1 := sc.1
    let result := sc.2
    let es := emitAgentEvent run "lifecycle" { phase := some "start", startedAt := some now } now
    let run1 := es.1
    let fStart := es.2
    let run2 := { run1 with accumulatedText := result.text }
    let fDelta := emitChatEvent run2 "delta" result.text now
    let st2 := appendHistory st1 run.sessionKey
      { role := "assistant", content := [ContentPart.text result.text]
        timestamp := now
        stopReason := some (result.stopReason.getD "stop")
        model := some (result.model.getD st1.currentModel)
        provider := some (result.provider.getD st1.currentProvider) } now
    let out := finishRun demo st2 run2 "completed" none
      (some [ContentPart.text result.text]) now
    some { state := out.state, run := out.run
           frames := [fStart, fDelta] ++ out.frames }
  else none

/-! ### Method handlers (`server.ts` `§4`) -/

/-- Optional string parameters, with JS falsiness: absent or `""` both fail
the `!p.field` presence checks. -/
def strFalsy (o : Option String) : Bool := o.getD "" = ""

/-- Result of a handler's synchronous part: the new state, the frames it
sent, and the run it created (if any) handed to `executeRun`. -/
structure HandlerOut where
  state : ServerState
  frames : List Frame
  run : Option Run := none
deriving Repr, DecidableEq

structure ChatSendParams where
  sessionKey : Option String := none
  message : Option String := none
  idempotencyKey : Option String := none
deriving Repr, DecidableEq

/-- The synchronous part of `handleChatSend` (`server.ts` lines 943–990):
validate params, probe and record the idempotency key, ensure session
metadata, create the run, append the user message to history, ACK with
`{runId, sessionKey}`.  The subsequent `executeRun` is the asynchronous
continuation. -/
def handleChatSendSync (cfg : ResolvedConfig) (st : ServerState) (id : String)
    (p : ChatSendParams) (now : Nat) : HandlerOut :=
  if strFalsy p.sessionKey ∨ strFalsy p.message ∨ strFalsy p.idempotencyKey then
    { state := st
      frames := [sendErrorF id "INVALID_REQUEST" "Missing sessionKey, message, or idempotencyKey"] }
  else
    let sessionKey := p.sessionKey.getD ""
    let message := p.message.getD ""
    let key := p.idempotencyKey.getD ""
    let d := isDuplicateKey cfg st.idempotencyKeys key now
    if d.1 then
      { state := { st with idempotencyKeys := d.2 }
        frames := [sendErrorF id "INVALID_REQUEST" "Duplicate idempotency key"] }
    else
      let st1 := { st with idempotencyKeys := recordIdempotencyKey cfg d.2 key now }
      let st2 := (ensureSessionMeta st1 sessionKey now).1
      let rc := createRun st2 sessionKey message
      let run := rc.1
      let st4 := appendHistory rc.2 sessionKey
        { role := "user", content := [ContentPart.text message], timestamp := now } now
      { state := st4
        frames := [Frame.res id true (ResPayload.ack run.runId (some sessionKey))]
        run := some run }

structure AgentParams where
  sessionKey : Option String := none
  message : Option String := none
  idempotencyKey : Option String := none
deriving Repr, DecidableEq

/-- The synchronous part of `handleAgent` (`server.ts` lines 1108–1137):
validate `message` and `idempotencyKey`, probe and record the idempotency
key, default the session key to `"default"`, ensure session metadata,
create the run, ACK with `{runId}`.  Unlike `handleChatSend`, no history
append occurs before `executeRun`. -/
def handleAgentSync (cfg : ResolvedConfig) (st : ServerState) (id : String)
    (p : AgentParams) (now : Nat) : HandlerOut :=
  if strFalsy p.message ∨ strFalsy p.idempotencyKey then
    { state := st
      frames := [sendErrorF id "INVALID_REQUEST" "Missing message or idempotencyKey"] }
  else
    let key := p.idempotencyKey.getD ""
    let d := isDuplicateKey cfg st.idempotencyKeys key now
    if d.1 then
      { state := { st with idempotencyKeys := d.2 }
        frames := [sendErrorF id "INVALID_REQUEST" "Duplicate idempotency key"] }
    else
      let st1 := { st with idempotencyKeys := recordIdempotencyKey cfg d.2 key now }
      let sessionKey := p.sessionKey.getD "default"
      let st2 := (ensureSessionMeta st1 sessionKey now).1
      let rc := createRun st2 sessionKey (p.message.getD "")
      { state := rc.2
        frames := [Frame.res id true (ResPayload.ack rc.1.runId none)]
        run := some rc.1 }

/-- The synchronous part of `handleAgentWait` (`server.ts` lines
1139–1177).  On a still-running run the handler pushes a resolver closure
(modelled by appending the request id to `waitResolvers`) and arms a
timeout timer; no frame is sent yet. -/
def handleAgentWait (st : ServerState) (id : String) (runId : Option String) :
    ServerState × List Frame :=
  if strFalsy runId then
    (st, [sendErrorF id "INVALID_REQUEST" "Missing runId"])
  else
    match jsGet st.runs (runId.getD "") with
    | none => (st, [sendErrorF id "INVALID_REQUEST" "Unknown runId"])
    | some run =>
      if run.state ≠ "running" then
        (st, [Frame.res id true (ResPayload.waitResult
          { runId := run.runId, state := run.state, text := run.accumulatedText })])
      else
        let run1 := { run with waitResolvers := run.waitResolvers ++ [id] }
        ({ st with runs := jsSet st.runs run.runId run1 }, [])

/-- The `agent.wait` timeout callback (`server.ts` lines 1169–1171): it only
sends the `AGENT_TIMEOUT` error — the resolver pushed for this request id
stays registered on the run. -/
def agentWaitTimeoutFrame (id : String) : Frame :=
  sendErrorF id "AGENT_TIMEOUT" "Wait timed out"

/-- JS `history.slice(-limit)` for a non-negative `limit`: `-0` is `0`, so
`slice(-0)` is `slice(0)` — the whole array; otherwise the last `limit`
elements. -/
def jsSliceLast (l : List α) (limit : Nat) : List α :=
  if limit = 0 then l else l.drop (l.length - limit)

/-- The `messages` field of the `chat.history` reply (`server.ts` lines
1040–1042): `limit = Math.min(p.limit ?? 50, 1000)`, then
`history.slice(-limit)`. -/
def chatHistoryMessages (history : List HistoryEntry) (limit : Option Nat) :
    List HistoryEntry :=
  jsSliceLast history (min (limit.getD 50) 1000)

structure ChatHistoryParams where
  sessionKey : Option String := none
  limit : Option Nat := none
deriving Repr, DecidableEq

/-- `handleChatHistory` (`server.ts` lines 1028–1073), including the
synthetic-greeting branch taken when the session is empty and
`config.greeting` is set. -/
def handleChatHistory (cfg : ResolvedConfig) (st : ServerState) (id : String)
    (p : ChatHistoryParams) (now : Nat) : HandlerOut :=
  if strFalsy p.sessionKey then
    { state := st, frames := [sendErrorF id "INVALID_REQUEST" "Missing sessionKey"] }
  else
    let sessionKey := p.sessionKey.getD ""
    let history := (jsGet st.chatHistory sessionKey).getD []
    let messages := chatHistoryMessages history p.limit
    let reply := Frame.res id true (ResPayload.history sessionKey messages)
    match history, cfg.greeting with
    | [], some g =>
      let ev := Frame.chatEvent "" sessionKey 0 "final" none
        (some { role := "assistant", content := [ContentPart.text g], timestamp := now })
      { state := appendHistory st sessionKey
          { role := "assistant", content := [ContentPart.text g], timestamp := now
            stopReason := some "end_turn" } now
        frames := [reply, ev] }
    | _, _ => { state := st, frames := [reply] }

/-! ### Pre-authentication message handling (`server.ts` lines 716–779) -/

/-- An inbound WebSocket text message after the JSON parse attempt:
unparseable, or a frame with its `type`, `id`, `method` fields (absent
fields `none`). -/
inductive InMessage where
  | malformed
  | frame (ty : String) (id : Option String) (method : Option String)
deriving Repr, DecidableEq

/-- What `handleMessage` does with a message on a not-yet-authenticated
connection: send reply frames and optionally close with a code, or proceed
into `handleConnect`. -/
inductive PreAuthResult where
  | reply (frames : List Frame) (closeCode : Option Nat)
  | connect (id : String)
deriving Repr, DecidableEq

/-- `handleMessage` (`server.ts` lines 716–779) restricted to an
unauthenticated connection: oversize check (close 1009), parse failure,
non-`req` type, missing `id`/`method` (each replied without closing), then
the first-message-must-be-connect gate (close 1008). -/
def handleMessagePre (maxPayload rawLen : Nat) (msg : InMessage) :
    PreAuthResult :=
  if maxPayload < rawLen then
    .reply [sendErrorF "unknown" "INVALID_REQUEST" "Payload too large"] (some 1009)
  else
    match msg with
    | .malformed =>
      .reply [sendErrorF "unknown" "INVALID_REQUEST" "Malformed JSON"] none
    | .frame ty id method =>
      if ty ≠ "req" then
        .reply [sendErrorF "unknown" "INVALID_REQUEST" "Expected type: req"] none
      else if strFalsy id ∨ strFalsy method then
        .reply [sendErrorF (id.getD "unknown") "INVALID_REQUEST" "Missing id or method"] none
      else if method.getD "" ≠ "connect" then
        .reply [sendErrorF (id.getD "unknown") "INVALID_REQUEST" "First message must be connect"]
          (some 1008)
      else
        .connect (id.getD "unknown")

/-! ### HTTP `/v1/chat/completions` auth (`server.ts` lines 492–502) -/

/-- Does `handleHttpChatCompletions` reject the request with 401?  The code
consults only `config.authToken` (truthy check); `config.authPassword` is
not examined on the HTTP path. -/
def http401 (cfg : ResolvedConfig) (authHeader : Option String) : Bool :=
  if cfg.authToken ≠ "" then
    decide (authHeader ≠ some ("Bearer " ++ cfg.authToken))
  else false

/-! ### Conversation logger (`conversation-logger.ts`) -/

/-- Is `c` in `[A-Za-z0-9_-]`, the class kept by `sanitizeKey`'s regex? -/
def isSafeChar (c : Char) : Bool :=
  ('a' ≤ c && c ≤ 'z') || ('A' ≤ c && c ≤ 'Z') || ('0' ≤ c && c ≤ '9') ||
    c = '_' || c = '-'

/-- `sanitizeKey` (`conversation-logger.ts` lines 225–228):
`key.replace(/[^a-zA-Z0-9_-]/g, "-").slice(0, 64)`. -/
def sanitizeKey (key : String) : String :=
  ⟨(key.data.map (fun c => if isSafeChar c then c else '-')).take 64⟩

/-- The JSONL line written by `ConversationLogger.append`:
`{session: sessionKey, ...entry}` — the `session` field holds the original
key. -/
structure LogLine where
  session : String
  entry : HistoryEntry
deriving Repr, DecidableEq

/-- The observable output of `ConversationLogger.append` (lines 242–249):
the sanitized key component of the filename
(`{safe}-{YYYY-MM-DD}.jsonl` — the date component, `isoDate(entry.timestamp)`,
is calendar formatting and not modelled) and the appended line. -/
structure LogAppend where
  fileKey : String
  line : LogLine
deriving Repr, DecidableEq

def loggerAppend (sessionKey : String) (entry : HistoryEntry) : LogAppend :=
  { fileKey := sanitizeKey sessionKey
    line := { session := sessionKey, entry := entry } }

/-- The close code of a pre-auth handling outcome (`none`: socket left open). -/
def PreAuthResult.closeCode : PreAuthResult → Option Nat
  | .reply _ c => c
  | .connect _ => none

/-! ### Map lemmas -/

theorem find?_set_map (m : List (String × α)) (k : String) (v : α)
    (h : m.any (fun p => p.1 = k) = true) :
    (m.map (fun p => if p.1 = k then (k, v) else p)).find? (fun p => p.1 = k) =
      some (k, v) := by
  induction m with
  | nil => simp at h
  | cons p t ih =>
    by_cases hp : p.1 = k
    · rw [List.map_cons, if_pos hp, List.find?_cons_of_pos _ (by simp)]
    · have ht : t.any (fun p => p.1 = k) = true := by
        simp only [List.any_cons, Bool.or_eq_true, decide_eq_true_eq] at h
        rcases h with h | h
        · exact absurd h hp
        · exact h
      rw [List.map_cons, if_neg hp, List.find?_cons_of_neg _ (by simp [hp]), ih ht]

theorem find?_append_absent (m : List (String × α)) (k : String) (v : α)
    (h : m.any (fun p => p.1 = k) = false) :
    (m ++ [(k, v)]).find? (fun p => p.1 = k) = some (k, v) := by
  induction m with
  | nil => simp
  | cons p t ih =>
    simp only [List.any_cons, Bool.or_eq_false_iff, decide_eq_false_iff_not] at h
    rw [List.cons_append, List.find?_cons_of_neg _ (by simp [h.1]), ih h.2]

theorem jsGet_jsSet_self (m : List (String × α)) (k : String) (v : α) :
    jsGet (jsSet m k v) k = some v := by
  unfold jsGet jsSet
  by_cases h : m.any (fun p => p.1 = k)
  · rw [if_pos h, find?_set_map m k v h]
    rfl
  · have h' : m.any (fun p => p.1 = k) = false := by
      revert h
      cases m.any (fun p => p.1 = k) <;> simp
    rw [if_neg h, find?_append_absent m k v h']
    rfl

theorem jsGet_jsDelete_self (m : List (String × α)) (k : String) :
    jsGet (jsDelete m k) k = none := by
  unfold jsGet jsDelete
  induction m with
  | nil => rfl
  | cons p t ih =>
    by_cases hp : p.1 = k
    · rw [List.filter_cons_of_neg (by simp [hp])]
      exact ih
    · rw [List.filter_cons_of_pos (by simp [hp]), List.find?_cons_of_neg _ (by simp [hp])]
      exact ih

theorem mem_of_mem_jsDelete {q : String × α} {m : List (String × α)} {k : String}
    (h : q ∈ jsDelete m k) : q ∈ m :=
  List.mem_of_mem_filter h

theorem mem_jsSet {q : String × α} {m : List (String × α)} {k : String} {v : α}
    (h : q ∈ jsSet m k v) : q.1 = k ∨ q ∈ m := by
  unfold jsSet at h
  by_cases ha : m.any (fun p => p.1 = k)
  · rw [if_pos ha] at h
    rcases List.mem_map.1 h with ⟨p, hp, rfl⟩
    by_cases hpk : p.1 = k
    · left; simp [hpk]
    · right; simpa [hpk] using hp
  · rw [if_neg ha] at h
    rcases List.mem_append.1 h with h1 | h1
    · right; exact h1
    · left
      have : q = (k, v) := by simpa using h1
      simp [this]

theorem jsSet_length_le (m : List (String × α)) (k : String) (v : α) :
    (jsSet m k v).length ≤ m.length + 1 := by
  unfold jsSet
  split
  · simp
  · simp

theorem jsDelete_length_le (m : List (String × α)) (k : String) :
    (jsDelete m k).length ≤ m.length :=
  List.length_filter_le _ m

/-! ### Server-state projection lemmas -/

theorem ensureSessionMeta_chatHistory (st : ServerState) (key : String) (now : Nat) :
    (ensureSessionMeta st key now).1.chatHistory = st.chatHistory := by
  unfold ensureSessionMeta
  split <;> rfl

theorem touchSessionMeta_chatHistory (st : ServerState) (key : String) (now : Nat) :
    (touchSessionMeta st key now).chatHistory = st.chatHistory := by
  unfold touchSessionMeta
  split <;> rfl

theorem appendHistory_chatHistory (st : ServerState) (key : String)
    (e : HistoryEntry) (now : Nat) :
    (appendHistory st key e now).chatHistory =
      jsSet st.chatHistory key ((jsGet st.chatHistory key).getD [] ++ [e]) := by
  simp [appendHistory, ensureSessionMeta_chatHistory]

/-! ### Claim C3 — pre-authentication frame handling -/

/-- **C3, counterexample.**  The claim says any pre-auth inbound frame other
than a `connect` request — frames whose `type` is not `"req"` included —
gets an `INVALID_REQUEST` reply *and* a close with code 1008.  A frame of
type `"event"` is replied to with `INVALID_REQUEST` but the socket is left
open (`closeCode = none`), so the claim fails. -/
theorem c3_nonreq_no_close_counterexample :
    (handleMessagePre 1000 1 (InMessage.frame "event" (some "x") (some "y"))).closeCode
      = none
    ∧ handleMessagePre 1000 1 (InMessage.frame "event" (some "x") (some "y"))
      = PreAuthResult.reply
          [sendErrorF "unknown" "INVALID_REQUEST" "Expected type: req"] none := by
  exact ⟨rfl, rfl⟩

/-- **C3, amended.**  On an unauthenticated connection, a *request* frame
(type `"req"`, `id` and `method` present) whose method is not `connect` is
replied to with `INVALID_REQUEST` and the socket is closed with 1008; a
frame whose type is not `"req"` is replied to with `INVALID_REQUEST` but
the socket stays open. -/
theorem c3_preauth_gate (maxP rawLen : Nat) (id method ty : String)
    (oid omethod : Option String) (hlen : rawLen ≤ maxP) (hid : id ≠ "")
    (hm : method ≠ "") (hmc : method ≠ "connect") (hty : ty ≠ "req") :
    handleMessagePre maxP rawLen (InMessage.frame "req" (some id) (some method))
      = PreAuthResult.reply
          [sendErrorF id "INVALID_REQUEST" "First message must be connect"] (some 1008)
    ∧ handleMessagePre maxP rawLen (InMessage.frame ty oid omethod)
      = PreAuthResult.reply
          [sendErrorF "unknown" "INVALID_REQUEST" "Expected type: req"] none := by
  constructor
  · simp [handleMessagePre, Nat.not_lt.2 hlen, strFalsy, hid, hm, hmc]
  · simp [handleMessagePre, Nat.not_lt.2 hlen, hty]

/-- **C3, witness** for `c3_preauth_gate` at concrete inputs. -/
theorem c3_preauth_gate_witness :
    (0 : Nat) ≤ 100 ∧ ("x" : String) ≠ "" ∧ ("ping" : String) ≠ ""
    ∧ ("ping" : String) ≠ "connect" ∧ ("event" : String) ≠ "req"
    ∧ handleMessagePre 100 0 (InMessage.frame "req" (some "x") (some "ping"))
        = PreAuthResult.reply
            [sendErrorF "x" "INVALID_REQUEST" "First message must be connect"] (some 1008) :=
  ⟨by decide, by decide, by decide, by decide, by decide,
    (c3_preauth_gate 100 0 "x" "ping" "event" none none (by decide) (by decide)
      (by decide) (by decide) (by decide)).1⟩

/-! ### Claim C4 — idempotency probe and `chat.send` deduplication -/

/-- **C4, counterexample.**  The claim says `isDuplicate(k)` is true iff `k`
is present and `now − firstSeen < TTL`.  At the boundary
`now − firstSeen = TTL` the code (`Date.now() - ts > ttl` for expiry) still
reports a duplicate, although `now − firstSeen < TTL` is false. -/
theorem c4_ttl_boundary_counterexample :
    (isDuplicateKey {} [("k", 0)] "k" 300000).1 = true
    ∧ jsGet [("k", (0 : Nat))] "k" = some 0
    ∧ ¬ ((300000 : Nat) - 0 < ({} : ResolvedConfig).dedupeTtlMs) := by
  exact ⟨rfl, rfl, by decide⟩

/-- **C4, amended.**  `isDuplicate(k)` returns true iff `k` is present and
`now − firstSeen ≤ TTL` (the entry expires only strictly after the TTL);
a strictly-expired entry is purged by the probe; on `chat.send` a duplicate
key yields the `INVALID_REQUEST` "Duplicate idempotency key" error and a
non-duplicate key is ACKed with a fresh `runId`. -/
theorem c4_dedupe_spec (cfg : ResolvedConfig) (st : ServerState)
    (id sess msg k : String) (now : Nat)
    (hs : sess ≠ "") (hm : msg ≠ "") (hk : k ≠ "") :
    ((isDuplicateKey cfg st.idempotencyKeys k now).1 = true ↔
        ∃ ts, jsGet st.idempotencyKeys k = some ts ∧ now - ts ≤ cfg.dedupeTtlMs)
    ∧ (∀ ts, jsGet st.idempotencyKeys k = some ts → cfg.dedupeTtlMs < now - ts →
        jsGet (isDuplicateKey cfg st.idempotencyKeys k now).2 k = none)
    ∧ ((isDuplicateKey cfg st.idempotencyKeys k now).1 = true →
        (handleChatSendSync cfg st id ⟨some sess, some msg, some k⟩ now).frames =
          [sendErrorF id "INVALID_REQUEST" "Duplicate idempotency key"])
    ∧ ((isDuplicateKey cfg st.idempotencyKeys k now).1 = false →
        ∃ rid, (handleChatSendSync cfg st id ⟨some sess, some msg, some k⟩ now).frames =
          [Frame.res id true (ResPayload.ack rid (some sess))]) := by
  refine ⟨?_, ?_, ?_, ?_⟩
  · unfold isDuplicateKey
    rcases hget : jsGet st.idempotencyKeys k with _ | ts
    · simp
    · simp only []
      split
      · rename_i hlt
        constructor
        · intro hcontra
          simp at hcontra
        · rintro ⟨ts', hts', hle⟩
          injection hts' with h
          subst h
          exact absurd hle (by omega)
      · rename_i hnlt
        constructor
        · intro _
          exact ⟨ts, rfl, by omega⟩
        · intro _
          rfl
  · intro ts hts hgt
    unfold isDuplicateKey
    simp only [hts]
    rw [if_pos hgt]
    exact jsGet_jsDelete_self _ _
  · intro hdup
    simp [handleChatSendSync, strFalsy, hs, hm, hk, hdup]
  · intro hndup
    refine ⟨(createRun ((ensureSessionMeta
        { st with idempotencyKeys :=
            recordIdempotencyKey cfg (isDuplicateKey cfg st.idempotencyKeys k now).2 k now }
        sess now).1) sess msg).1.runId, ?_⟩
    simp [handleChatSendSync, strFalsy, hs, hm, hk, hndup]

/-- **C4, witness** for `c4_dedupe_spec` at concrete inputs. -/
theorem c4_dedupe_spec_witness :
    ("s" : String) ≠ "" ∧ ("m" : String) ≠ "" ∧ ("k" : String) ≠ ""
    ∧ ((isDuplicateKey ({} : ResolvedConfig) initialState.idempotencyKeys "k" 0).1 = true ↔
        ∃ ts, jsGet initialState.idempotencyKeys "k" = some ts ∧
          0 - ts ≤ ({} : ResolvedConfig).dedupeTtlMs) :=
  ⟨by decide, by decide, by decide,
    (c4_dedupe_spec {} initialState "r" "s" "m" "k" 0 (by decide) (by decide) (by decide)).1⟩

/-! ### Claim C5 — `finishRun` on the error path -/

/-- **C5.**  Finishing a run in the error state emits an `agent` lifecycle
event with phase `"error"` carrying the message and a `chat` event with
state `"error"` carrying the message, appends nothing to any session
history, marks the run `"error"`, and resolves every registered waiter
with a payload whose `state` is `"error"`. -/
theorem c5_finishRun_error (demo : String → List DemoToolCall)
    (st : ServerState) (run : Run) (msg : String) (now : Nat) :
    (finishRun demo st run "error" (some msg) none now).frames =
      Frame.agentEvent run.runId run.sessionKey (run.seq + 1) "lifecycle" now
          { phase := some "error", error := some msg, endedAt := some now }
        :: Frame.chatEvent run.runId run.sessionKey (run.seq + 1) "error" (some msg) none
        :: run.waitResolvers.map (fun wid => Frame.res wid true (ResPayload.waitResult
             { runId := run.runId, state := "error", text := run.accumulatedText }))
    ∧ (finishRun demo st run "error" (some msg) none now).state.chatHistory = st.chatHistory
    ∧ (finishRun demo st run "error" (some msg) none now).run.state = "error"
    ∧ (finishRun demo st run "error" (some msg) none now).payload =
        { runId := run.runId, state := "error", text := run.accumulatedText } := by
  refine ⟨?_, ?_, ?_, ?_⟩
  · simp [finishRun, emitAgentEvent, emitChatEvent]
  · simp [finishRun, emitAgentEvent, touchSessionMeta_chatHistory]
  · simp [finishRun, emitAgentEvent]
  · simp [finishRun, emitAgentEvent]

/-! ### Claim C6 — `chat.history` limit handling -/

/-- **C6, counterexample.**  The claim says a request with `limit = 0`
returns no entries; but `history.slice(-0)` is `history.slice(0)`, the
whole history, so a one-entry session returns that entry. -/
theorem c6_limit_zero_counterexample :
    chatHistoryMessages [{ role := "user", content := [], timestamp := 0 }] (some 0) =
      [{ role := "user", content := [], timestamp := 0 }]
    ∧ chatHistoryMessages [{ role := "user", content := [], timestamp := 0 }] (some 0)
        ≠ ([] : List HistoryEntry) := by
  exact ⟨rfl, by decide⟩

/-- **C6, amended.**  For a numeric limit `n ≥ 1` the reply holds exactly
the last `min(n, 1000)` entries of the session history, in insertion order
(the reply list is a suffix of the history); with no limit the default is
50; `limit = 0` returns the entire history (`slice(-0) = slice(0)`); the
`chat.history` reply frame carries exactly this computation. -/
theorem c6_history_limit (cfg : ResolvedConfig) (st : ServerState)
    (id sess : String) (h : List HistoryEntry) (n now : Nat) (lim : Option Nat)
    (hn : 1 ≤ n) (hs : sess ≠ "") :
    (chatHistoryMessages h (some n)).length = min (min n 1000) h.length
    ∧ chatHistoryMessages h (some n) <:+ h
    ∧ chatHistoryMessages h none = chatHistoryMessages h (some 50)
    ∧ chatHistoryMessages h (some 0) = h
    ∧ (handleChatHistory cfg st id ⟨some sess, lim⟩ now).frames.head? =
        some (Frame.res id true (ResPayload.history sess
          (chatHistoryMessages ((jsGet st.chatHistory sess).getD []) lim))) := by
  have hlim : ¬ (min n 1000 = 0) := by omega
  refine ⟨?_, ?_, rfl, rfl, ?_⟩
  · rw [chatHistoryMessages, jsSliceLast]
    simp only [Option.getD_some]
    rw [if_neg hlim, List.length_drop]
    omega
  · rw [chatHistoryMessages, jsSliceLast]
    simp only [Option.getD_some]
    rw [if_neg hlim]
    exact List.drop_suffix _ _
  · unfold handleChatHistory
    simp only [strFalsy, Option.getD_some]
    rw [if_neg (by simpa using hs)]
    split <;> rfl

/-- **C6, witness** for `c6_history_limit` at concrete inputs. -/
theorem c6_history_limit_witness :
    (1 : Nat) ≤ 1 ∧ ("s" : String) ≠ ""
    ∧ (chatHistoryMessages [{ role := "user", content := [], timestamp := 0 }] (some 1)).length =
        min (min 1 1000) ([{ role := "user", content := [], timestamp := 0 }] : List HistoryEntry).length :=
  ⟨by decide, by decide,
    (c6_history_limit {} initialState "r" "s"
      [{ role := "user", content := [], timestamp := 0 }] 1 0 none (by decide) (by decide)).1⟩

/-! ### Claim C8 — disk-log filename sanitization -/

/-- **C8.**  The disk-log filename component is the session key with every
character outside `[A-Za-z0-9_-]` replaced by `-`, truncated to 64
characters — so it is at most 64 long and contains only safe characters —
while the JSONL line stores the original, unsanitized key in its `session`
field together with the unaltered entry. -/
theorem c8_sanitize_filename (key : String) (entry : HistoryEntry) :
    (loggerAppend key entry).line.session = key
    ∧ (loggerAppend key entry).line.entry = entry
    ∧ (loggerAppend key entry).fileKey = sanitizeKey key
    ∧ (sanitizeKey key).data =
        (key.data.map (fun c => if isSafeChar c then c else '-')).take 64
    ∧ (sanitizeKey key).length ≤ 64
    ∧ (sanitizeKey key).data.all isSafeChar = true := by
  refine ⟨rfl, rfl, rfl, rfl, ?_, ?_⟩
  · show ((key.data.map (fun c => if isSafeChar c then c else '-')).take 64).length ≤ 64
    rw [List.length_take]
    exact min_le_left _ _
  · rw [List.all_eq_true]
    intro c hc
    have hc' := List.mem_of_mem_take hc
    rcases List.mem_map.1 hc' with ⟨a, _, rfl⟩
    by_cases hsafe : isSafeChar a
    · rw [if_pos hsafe]
      exact hsafe
    · rw [if_neg hsafe]
      decide

/-! ### Claim C9 — HTTP completions auth -/

/-- **C9, counterexample.**  The claim says a 401 is returned whenever
*either* an auth token or an auth password is configured and the bearer is
missing or wrong.  With only `authPassword` set, the HTTP handler performs
no auth check at all: a request with no `Authorization` header is not
rejected. -/
theorem c9_password_only_counterexample :
    http401 { authPassword := "pw" } none = false
    ∧ (({ authPassword := "pw" } : ResolvedConfig).authToken ≠ ""
        ∨ ({ authPassword := "pw" } : ResolvedConfig).authPassword ≠ "") := by
  refine ⟨rfl, Or.inr ?_⟩
  decide

/-- **C9, amended.**  Whenever an auth *token* is configured, a POST
`/v1/chat/completions` request is rejected with 401 exactly when its
`Authorization` header differs from `Bearer <token>` (missing included);
with no token configured the endpoint performs no auth check, even if an
auth password is set. -/
theorem c9_http_auth (cfg : ResolvedConfig) (header : Option String)
    (htok : cfg.authToken ≠ "") :
    (http401 cfg header = true ↔ header ≠ some ("Bearer " ++ cfg.authToken)) := by
  simp [http401, htok]

/-- **C9, witness** for `c9_http_auth` at concrete inputs. -/
theorem c9_http_auth_witness :
    (({ authToken := "t" } : ResolvedConfig).authToken ≠ "")
    ∧ (http401 { authToken := "t" } none = true ↔
        (none : Option String) ≠ some ("Bearer " ++ ({ authToken := "t" } : ResolvedConfig).authToken)) :=
  ⟨by decide, c9_http_auth { authToken := "t" } none (by decide)⟩

/-! ### Claim C1 — one response per request vs. the `agent.wait` timeout -/

/-- The claim's own scenario, replayed on the embedding: a run is created;
`agent.wait` (request id `r2`) registers a waiter on the still-running run;
the wait timeout fires, sending the `AGENT_TIMEOUT` error — but the
timeout callback does not deregister the waiter; the run then finishes
(here: an adapter completing it with external content parts) and
`finishRun` resolves every registered waiter, sending a second response
with the same id.  The trace lists every frame addressed to the
connection. -/
def agentWaitTimeoutTrace : List Frame :=
  let rc := createRun initialState "main" "task"
  let aw := handleAgentWait rc.2 "r2" (some rc.1.runId)
  match jsGet aw.1.runs rc.1.runId with
  | some run2 =>
    aw.2 ++ [agentWaitTimeoutFrame "r2"]
      ++ (finishRun (fun _ => []) aw.1 run2 "completed" none
            (some [ContentPart.text "done"]) 5).frames
  | none => aw.2 ++ [agentWaitTimeoutFrame "r2"]

/-- **C1.**  The code violates the one-response-per-request invariant: in
the timeout scenario the request `r2` receives two responses — first the
`AGENT_TIMEOUT` error, then, when the watched run terminates, the waiter
resolution — because `handleAgentWait`'s timeout callback never removes
the registered resolver.  (The spec states the invariant; the code is the
slip.) -/
theorem c1_agent_wait_double_response :
    agentWaitTimeoutTrace.filter (isResponseFor "r2") =
      [agentWaitTimeoutFrame "r2",
       Frame.res "r2" true (ResPayload.waitResult
         { runId := "run_1", state := "completed", text := "" })]
    ∧ (agentWaitTimeoutTrace.filter (isResponseFor "r2")).length = 2 := by
  exact ⟨by decide, by decide⟩

/-! ### Claim C2 — `agent` vs. the `chat.send` contract -/

/-- **C2, counterexample.**  The claim says `agent` appends the user message
to the session's history before the run starts.  On a fresh server, an
`agent` request with message `"hi"` and a fresh idempotency key is ACKed
with the new `runId`, yet the chat history is still empty — in particular
the default session `"default"` has no entry. -/
theorem c2_agent_history_counterexample :
    (handleAgentSync {} initialState "r1"
        { message := some "hi", idempotencyKey := some "k" } 0).state.chatHistory = []
    ∧ jsGet (handleAgentSync {} initialState "r1"
        { message := some "hi", idempotencyKey := some "k" } 0).state.chatHistory "default" = none
    ∧ (handleAgentSync {} initialState "r1"
        { message := some "hi", idempotencyKey := some "k" } 0).frames =
      [Frame.res "r1" true (ResPayload.ack "run_1" none)] := by
  exact ⟨by decide, by decide, by decide⟩

/-- **C2, amended.**  `agent` follows `chat.send`'s validation and
idempotency steps with the session key defaulting to `"default"`, and the
synchronous reply carries the new `runId`; but, unlike `chat.send`, it
does *not* append the user message to the session history — the chat
history is unchanged when the run starts (the message reaches the backend
only through the `Run` record). -/
theorem c2_agent_no_append (cfg : ResolvedConfig) (st : ServerState)
    (id msg key : String) (now : Nat) (hm : msg ≠ "") (hk : key ≠ "")
    (hdup : (isDuplicateKey cfg st.idempotencyKeys key now).1 = false) :
    ∃ run st3,
      handleAgentSync cfg st id { message := some msg, idempotencyKey := some key } now =
        { state := st3
          frames := [Frame.res id true (ResPayload.ack run.runId none)]
          run := some run }
      ∧ run.sessionKey = "default" ∧ run.message = msg ∧ run.state = "running"
      ∧ st3.chatHistory = st.chatHistory := by
  refine ⟨(createRun ((ensureSessionMeta
        { st with idempotencyKeys :=
            recordIdempotencyKey cfg (isDuplicateKey cfg st.idempotencyKeys key now).2 key now }
        "default" now).1) "default" msg).1,
      (createRun ((ensureSessionMeta
        { st with idempotencyKeys :=
            recordIdempotencyKey cfg (isDuplicateKey cfg st.idempotencyKeys key now).2 key now }
        "default" now).1) "default" msg).2,
      ?_, rfl, rfl, rfl, ?_⟩
  · simp [handleAgentSync, strFalsy, hm, hk, hdup]
  · simp [createRun, ensureSessionMeta_chatHistory]

/-- **C2, witness** for `c2_agent_no_append` at concrete inputs. -/
theorem c2_agent_no_append_witness :
    (handleAgentSync {} initialState "r1"
        { message := some "hi", idempotencyKey := some "k" } 0).run.map Run.sessionKey =
      some "default" := by
  obtain ⟨run, st3, heq, hsk, -, -, -⟩ :=
    c2_agent_no_append {} initialState "r1" "hi" "k" 0 (by decide) (by decide) (by decide)
  rw [heq]
  simp [hsk]

/-! ### Claim C7 — idempotency cache capacity bound -/

/-- The invariant C7 maintains: the cache respects the capacity bound and
every stored key is non-empty (every recorded key passed a JS-truthiness
presence check in its handler). -/
def dedupeInv (maxKeys : Nat) (m : List (String × Nat)) : Prop :=
  m.length ≤ maxKeys ∧ ∀ p ∈ m, p.1 ≠ ""

theorem dedupeInv_record (cfg : ResolvedConfig) (hmax : 1 ≤ cfg.dedupeMaxKeys)
    (m : List (String × Nat)) (k : String) (now : Nat) (hk : k ≠ "")
    (h : dedupeInv cfg.dedupeMaxKeys m) :
    dedupeInv cfg.dedupeMaxKeys (recordIdempotencyKey cfg m k now) := by
  obtain ⟨hlen, hkeys⟩ := h
  unfold recordIdempotencyKey
  by_cases hcap : cfg.dedupeMaxKeys ≤ m.length
  · rw [if_pos hcap]
    cases m with
    | nil => simp at hcap; omega
    | cons p t =>
      have hp : p.1 ≠ "" := hkeys p (List.mem_cons_self _ _)
      simp only [List.head?_cons]
      rw [if_neg hp]
      constructor
      · have h1 : (jsDelete (p :: t) p.1).length ≤ t.length := by
          unfold jsDelete
          rw [List.filter_cons_of_neg (by simp)]
          exact List.length_filter_le _ t
        calc (jsSet (jsDelete (p :: t) p.1) k now).length
            ≤ (jsDelete (p :: t) p.1).length + 1 := jsSet_length_le _ _ _
          _ ≤ t.length + 1 := by omega
          _ = (p :: t).length := by simp
          _ ≤ cfg.dedupeMaxKeys := hlen
      · intro q hq
        rcases mem_jsSet hq with h1 | h1
        · rw [h1]; exact hk
        · exact hkeys q (mem_of_mem_jsDelete h1)
  · rw [if_neg hcap]
    constructor
    · calc (jsSet m k now).length ≤ m.length + 1 := jsSet_length_le _ _ _
        _ ≤ cfg.dedupeMaxKeys := by omega
    · intro q hq
      rcases mem_jsSet hq with h1 | h1
      · rw [h1]; exact hk
      · exact hkeys q h1

theorem dedupeInv_probe (cfg : ResolvedConfig) (m : List (String × Nat))
    (k : String) (now : Nat) (h : dedupeInv cfg.dedupeMaxKeys m) :
    dedupeInv cfg.dedupeMaxKeys (isDuplicateKey cfg m k now).2 := by
  obtain ⟨hlen, hkeys⟩ := h
  unfold isDuplicateKey
  cases hget : jsGet m k with
  | none => exact ⟨hlen, hkeys⟩
  | some ts =>
    simp only []
    split
    · exact ⟨le_trans (jsDelete_length_le m k) hlen,
        fun q hq => hkeys q (mem_of_mem_jsDelete hq)⟩
    · exact ⟨hlen, hkeys⟩

/-- **C7.**  Starting from the empty cache, after any sequence of record and
probe operations (whose keys are non-empty, as every handler's presence
check guarantees) the cache size never exceeds `dedupeMaxKeys`; and the
record step at capacity first evicts the earliest-inserted (head) entry
before inserting the new key. -/
theorem c7_dedupe_capacity (cfg : ResolvedConfig) (ops : List DedupeOp)
    (hmax : 1 ≤ cfg.dedupeMaxKeys) (hops : ∀ op ∈ ops, op.key ≠ "") :
    (applyDedupeOps cfg ops).length ≤ cfg.dedupeMaxKeys
    ∧ (∀ (m : List (String × Nat)) (k : String) (now : Nat) (p : String × Nat),
        cfg.dedupeMaxKeys ≤ m.length → m.head? = some p → p.1 ≠ "" →
        recordIdempotencyKey cfg m k now = jsSet (jsDelete m p.1) k now) := by
  constructor
  · have main : ∀ (ops' : List DedupeOp) (m : List (String × Nat)),
        (∀ op ∈ ops', op.key ≠ "") → dedupeInv cfg.dedupeMaxKeys m →
        dedupeInv cfg.dedupeMaxKeys (ops'.foldl (applyDedupeOp cfg) m) := by
      intro ops'
      induction ops' with
      | nil => intro m _ h; exact h
      | cons op t ih =>
        intro m hops' h
        rw [List.foldl_cons]
        apply ih _ (fun o ho => hops' o (List.mem_cons_of_mem _ ho))
        cases op with
        | record k now =>
          exact dedupeInv_record cfg hmax m k now (hops' _ (List.mem_cons_self _ _)) h
        | probe k now => exact dedupeInv_probe cfg m k now h
    exact (main ops [] hops ⟨by simp, by simp⟩).1
  · intro m k now p hcap hhead hp
    unfold recordIdempotencyKey
    rw [if_pos hcap, hhead]
    simp only []
    rw [if_neg hp]

/-- **C7, witness** for `c7_dedupe_capacity` at concrete inputs. -/
theorem c7_dedupe_capacity_witness :
    (applyDedupeOps {} [DedupeOp.record "a" 0]).length ≤
      ({} : ResolvedConfig).dedupeMaxKeys :=
  (c7_dedupe_capacity {} [DedupeOp.record "a" 0] (by decide) (by decide)).1

/-! ### Claim C10 — slash commands append two assistant entries -/

theorem handleSlashCommand_stopReason (st : ServerState) (run : Run)
    (lower : String) : (handleSlashCommand st run lower).2.stopReason = none := by
  unfold handleSlashCommand
  repeat' split
  all_goals (first | rfl | (dsimp only []; split <;> rfl))

theorem finishRun_completed_external_chatHistory
    (demo : String → List DemoToolCall) (st : ServerState) (run : Run)
    (parts : List ContentPart) (now : Nat) :
    (finishRun demo st run "completed" none (some parts) now).state.chatHistory =
      jsSet st.chatHistory run.sessionKey ((jsGet st.chatHistory run.sessionKey).getD [] ++
        [{ role := "assistant", content := parts, timestamp := now
           stopReason := some "end_turn" }]) := by
  simp [finishRun, emitAgentEvent, touchSessionMeta_chatHistory, appendHistory_chatHistory]

/-- **C10.**  For every run whose trimmed message begins with `/`, the
slash-command interceptor and `finishRun` together append two assistant
entries with identical text to that session's history: the interceptor's
inline entry with `stopReason = "stop"` (no command supplies its own), and
`finishRun`'s entry with `stopReason = "end_turn"`. -/
theorem c10_slash_double_history (demo : String → List DemoToolCall)
    (st : ServerState) (run : Run) (now : Nat)
    (hs : jsStartsWith (jsToLower (jsTrim run.message)) "/" = true) :
    ∃ base t m p,
      (executeRunSlash demo st run now).map
          (fun out => jsGet out.state.chatHistory run.sessionKey) =
        some (some (base ++
          [{ role := "assistant", content := [ContentPart.text t], timestamp := now
             stopReason := some "stop", model := some m, provider := some p },
           { role := "assistant", content := [ContentPart.text t], timestamp := now
             stopReason := some "end_turn" }])) := by
  have hstop := handleSlashCommand_stopReason st run (jsToLower (jsTrim run.message))
  refine ⟨(jsGet (handleSlashCommand st run (jsToLower (jsTrim run.message))).1.chatHistory
        run.sessionKey).getD [],
      (handleSlashCommand st run (jsToLower (jsTrim run.message))).2.text,
      (handleSlashCommand st run (jsToLower (jsTrim run.message))).2.model.getD
        (handleSlashCommand st run (jsToLower (jsTrim run.message))).1.currentModel,
      (handleSlashCommand st run (jsToLower (jsTrim run.message))).2.provider.getD
        (handleSlashCommand st run (jsToLower (jsTrim run.message))).1.currentProvider, ?_⟩
  unfold executeRunSlash
  dsimp only []
  rw [hs]
  simp only [if_true, Option.map_some', if_pos]
  rw [finishRun_completed_external_chatHistory, appendHistory_chatHistory]
  simp [emitAgentEvent, jsGet_jsSet_self, hstop, List.append_assoc]

/-- **C10, witness** for `c10_slash_double_history` at concrete inputs. -/
theorem c10_slash_double_history_witness :
    jsStartsWith (jsToLower (jsTrim "/help")) "/" = true
    ∧ ((executeRunSlash (fun _ => []) initialState
        { runId := "run_1", sessionKey := "main", message := "/help", seq := 0
          state := "running" } 0).map
      (fun out => jsGet out.state.chatHistory
        ({ runId := "run_1", sessionKey := "main", message := "/help", seq := 0
           state := "running" } : Run).sessionKey)).isSome = true := by
  refine ⟨by decide, ?_⟩
  obtain ⟨base, t, m, p, heq⟩ :=
    c10_slash_double_history (fun _ => []) initialState
      { runId := "run_1", sessionKey := "main", message := "/help", seq := 0
        state := "running" } 0 (by decide)
  rw [heq]
  rfl

end MiniClaw
